import Mathlib

/-!
Verification of the Live Engagement Telemetry and Quiz Synchronization
subsystem of the classroom engagement platform.

The definitions below are a shallow embedding of the client code:

* the Signal Composer arithmetic of sendTelemetrySignal together with the
  clamp helper (student session page);
* the camera self-heal handler installed by startCamera (single-flight
  recovery timer);
* quizRemainingSeconds and the time-over guard of handleQuizAnswer;
* the connectEngagementSocket functions of the student telemetry channel
  and of the instructor insights channel;
* the branch structure of one compose cycle of sendTelemetrySignal;
* the resubscribe effect of the instructor insights page.

JS numbers that take part in the blend arithmetic are modelled as exact
rationals; millisecond timestamps are modelled as integers.
-/

/-- Embeds the clamp helper of the student session page:
max(min(value, max), min) with bounds passed explicitly. -/
def clamp (value lo hi : ℚ) : ℚ := max lo (min hi value)

/-- clamp with its default bounds (min = 0, max = 1), the form used by
sendTelemetrySignal. -/
def clamp01 (value : ℚ) : ℚ := clamp value 0 1

/-- Embeds Number(x.toFixed(3)): round to three decimal places. -/
def jsToFixed3 (x : ℚ) : ℚ := ((round (x * 1000) : ℤ) : ℚ) / 1000

/-- Embeds Number(x.toFixed(1)): round to one decimal place. -/
def jsToFixed1 (x : ℚ) : ℚ := ((round (x * 10) : ℤ) : ℚ) / 10

/-- The mutable activity-monitor and UI inputs read by one invocation of
sendTelemetrySignal: the ref cells of the student session page plus the
document visibility and focus probes, sampled at time nowMs. -/
structure TelemetryInputs where
  nowMs : ℤ
  joinAtMs : ℤ
  hiddenAccumulatedMs : ℤ
  hiddenStartedAtMs : Option ℤ
  lastInteractionMs : ℤ
  interactionCount : ℕ
  answeredQuizAtMs : Option ℤ
  showMeeting : Bool
  docVisible : Bool
  focusedFlag : Bool
  docHasFocus : Bool

/-- The numeric fields of the outbound vision_sample envelope. -/
structure TelemetrySignal where
  participation : ℚ
  attendance_consistency : ℚ
  interaction_recency_seconds : ℚ
  interaction_events : ℕ
  movement_intensity : ℚ

/-- Embeds the payload computation of sendTelemetrySignal (student session
page): elapsed time, hidden time including a currently open hidden
interval, visible share, interaction burst, quiz-answer recency, and the
three clamped blends, each transmitted through toFixed(3). -/
def composeTelemetry (i : TelemetryInputs) : TelemetrySignal :=
  let sessionElapsedMs : ℤ := max (i.nowMs - i.joinAtMs) 1
  let hiddenMs : ℤ := i.hiddenAccumulatedMs +
    (match i.hiddenStartedAtMs with
     | some startedAt => i.nowMs - startedAt
     | none => 0)
  let visibleShare : ℚ := clamp01 (1 - (hiddenMs : ℚ) / (sessionElapsedMs : ℚ))
  let isFocused : Bool := i.docVisible && i.focusedFlag && i.docHasFocus
  let recencySeconds : ℚ := ((i.nowMs - i.lastInteractionMs : ℤ) : ℚ) / 1000
  let interactionBurst : ℚ := clamp01 ((i.interactionCount : ℚ) / 10)
  let answeredRecently : Bool :=
    match i.answeredQuizAtMs with
    | some answeredAt => decide (i.nowMs - answeredAt < 180000)
    | none => false
  let movementIntensity : ℚ := clamp01
    (interactionBurst * 0.65
      + (if isFocused then 0.2 else 0.06)
      + (if i.docVisible then 0.09 else 0))
  let participationEstimate : ℚ := clamp01
    (0.18
      + interactionBurst * 0.5
      + (if answeredRecently then 0.22 else 0)
      + (if i.showMeeting then 0.08 else 0)
      + (if isFocused then 0.05 else 0))
  let attendanceConsistency : ℚ := clamp01 (0.55 + visibleShare * 0.45)
  { participation := jsToFixed3 participationEstimate
    attendance_consistency := jsToFixed3 attendanceConsistency
    interaction_recency_seconds := jsToFixed1 recencySeconds
    interaction_events := i.interactionCount
    movement_intensity := jsToFixed3 movementIntensity }

/-- Camera UI states of the DeviceStream Manager. -/
inductive CameraUiState
  | IDLE
  | ACTIVE
  | DENIED
  | ERROR
deriving DecidableEq, Repr

/-- The camera-recovery bookkeeping of the student session page: whether
cameraRecoveryTimerRef currently holds a pending backoff timer, the
displayed camera state and message, and two counters instrumenting the
recovery flow (timers scheduled, release-and-reacquire sequences run). -/
structure CameraRecoveryState where
  recoveryTimerPending : Bool
  cameraState : CameraUiState
  cameraMessage : String
  scheduledRecoveries : ℕ
  executedRecoveries : ℕ
deriving DecidableEq, Repr

/-- Embeds the onended handler installed by startCamera on the active
video track: if a recovery timer is already pending the event returns at
once; otherwise the state turns ERROR with the recovering message and one
~1.2s backoff timer is scheduled. -/
def onTrackEnded (s : CameraRecoveryState) : CameraRecoveryState :=
  if s.recoveryTimerPending then s
  else
    { s with
      cameraState := .ERROR
      cameraMessage := "Camera interrupted (stream-ended). Recovering..."
      recoveryTimerPending := true
      scheduledRecoveries := s.scheduledRecoveries + 1 }

/-- Embeds the backoff timer callback: it clears cameraRecoveryTimerRef
and runs one release-and-reacquire sequence (stopCamera then startCamera).
A fire event with no pending timer cannot occur (the timer was cleared),
so it is modelled as a no-op. -/
def onRecoveryTimerFire (s : CameraRecoveryState) : CameraRecoveryState :=
  if s.recoveryTimerPending then
    { s with
      recoveryTimerPending := false
      executedRecoveries := s.executedRecoveries + 1 }
  else s

/-- Events of the camera-recovery state machine. -/
inductive CameraEvent
  | trackEnded
  | recoveryTimerFire
deriving DecidableEq, Repr

/-- Runs a sequence of camera-recovery events on the event loop. -/
def runCameraEvents (s : CameraRecoveryState) : List CameraEvent → CameraRecoveryState
  | [] => s
  | e :: es =>
    runCameraEvents
      (match e with
       | .trackEnded => onTrackEnded s
       | .recoveryTimerFire => onRecoveryTimerFire s)
      es

/-- The quiz checkpoint record of the student session page interface
SessionQuizItem. expires_at is the raw optional string field; the JS Date
parse applied to it is a parameter of the functions below. -/
structure SessionQuizItem where
  id : ℕ
  question : String
  options : List String
  duration_seconds : Option ℤ
  expires_at : Option String
  remaining_seconds : Option ℤ
  is_active : Bool
  total_responses : ℕ
  correct_responses : ℕ
deriving DecidableEq, Repr

/-- The fall-through tail of quizRemainingSeconds: return the clamped
server-reported remaining_seconds snapshot when it is a number, else
null. -/
def quizRemainingFallback (quiz : SessionQuizItem) : Option ℤ :=
  match quiz.remaining_seconds with
  | some r => some (max r 0)
  | none => none

/-- Embeds quizRemainingSeconds (identical in the student session page and
the instructor session page): when expires_at is truthy (a non-empty
string) and parses to a non-NaN time, return
max(floor((expiresAtMs - nowMs) / 1000), 0); otherwise fall through to the
remaining_seconds snapshot. parse models s => new Date(s).getTime() with
NaN mapped to none. -/
def quizRemainingSeconds (parse : String → Option ℤ) (quiz : SessionQuizItem)
    (nowMs : ℤ) : Option ℤ :=
  match quiz.expires_at with
  | some s =>
    if s = "" then quizRemainingFallback quiz
    else
      match parse s with
      | some expiresAtMs => some (max ((expiresAtMs - nowMs).fdiv 1000) 0)
      | none => quizRemainingFallback quiz
  | none => quizRemainingFallback quiz

/-- Restates the spec's words for the remaining-time query, for comparison
with quizRemainingSeconds: prefer the value derived from the absolute
expiry timestamp whenever expires_at is present and parses to a valid
time, fall back to the server-reported remaining-seconds snapshot only
when no usable expiry exists, and return null when neither basis is
available. -/
def quizRemainingSecondsSpec (parse : String → Option ℤ) (quiz : SessionQuizItem)
    (nowMs : ℤ) : Option ℤ :=
  match quiz.expires_at with
  | some s =>
    match parse s with
    | some expiresAtMs => some (max ((expiresAtMs - nowMs).fdiv 1000) 0)
    | none => quizRemainingFallback quiz
  | none => quizRemainingFallback quiz

/-- Pointwise order on optional remaining times: null compares only with
null, known values compare by ≤. -/
def optionLeZ : Option ℤ → Option ℤ → Prop
  | none, none => True
  | some a, some b => a ≤ b
  | _, _ => False

/-- The state the Quiz Synchronizer holds for one tracked checkpoint: the
latest authoritative data and the 1Hz quizClock value. -/
structure QuizTrackState where
  quiz : SessionQuizItem
  clockMs : ℤ

/-- Events affecting a tracked checkpoint: a quizClock tick
(setQuizClock(Date.now()) in the 1-second interval) or fresh authoritative
data from the server (loadActiveQuizzes replacing the checkpoint). -/
inductive QuizSyncEvent
  | clockTick (nowMs : ℤ)
  | dataRefresh (quiz : SessionQuizItem)

/-- State transition of the tracked checkpoint. -/
def quizSyncStep (s : QuizTrackState) : QuizSyncEvent → QuizTrackState
  | .clockTick nowMs => { s with clockMs := nowMs }
  | .dataRefresh quiz => { s with quiz := quiz }

/-- The remaining time the page derives and renders for the tracked
checkpoint. -/
def displayedRemaining (parse : String → Option ℤ) (s : QuizTrackState) : Option ℤ :=
  quizRemainingSeconds parse s.quiz s.clockMs

/-- Feedback severity of the quiz feedback banner. -/
inductive QuizFeedbackType
  | SUCCESS
  | ERROR
  | INFO
deriving DecidableEq, Repr

/-- The quiz feedback banner payload. -/
structure QuizFeedback where
  type : QuizFeedbackType
  message : String
deriving DecidableEq, Repr

/-- How one handleQuizAnswer invocation ended. -/
inductive QuizAnswerOutcome
  | noSession
  | timeOver
  | noSelection
  | submitted
deriving DecidableEq, Repr

/-- Observable effects of one handleQuizAnswer invocation: the outcome,
the feedback decided locally before any submission, whether
loadActiveQuizzes was triggered, and whether the network submission
request was issued. -/
structure QuizAnswerResult where
  outcome : QuizAnswerOutcome
  feedback : Option QuizFeedback
  refetchedActiveQuizzes : Bool
  networkSubmitted : Bool
deriving DecidableEq, Repr

/-- Embeds handleQuizAnswer of the student session page up to the point
the submission request is issued: guard on a loaded session, reject with
the time-over feedback and re-fetch the active set when the computed
remaining time is known and ≤ 0, reject when no option is selected, and
otherwise issue the network submission. After a successful submission the
code re-fetches the active set (submitSucceeds); the post-response
feedback depends on the server reply and is outside this model. -/
def handleQuizAnswer (parse : String → Option ℤ) (hasSession : Bool)
    (quiz : SessionQuizItem) (quizClock : ℤ) (selectedOption : Option ℕ)
    (submitSucceeds : Bool) : QuizAnswerResult :=
  if hasSession = false then
    { outcome := .noSession, feedback := none
      refetchedActiveQuizzes := false, networkSubmitted := false }
  else if (match quizRemainingSeconds parse quiz quizClock with
           | some r => decide (r ≤ 0)
           | none => false) then
    { outcome := .timeOver
      feedback := some { type := .ERROR
                         message := "Quiz time is over. Wait for the next checkpoint." }
      refetchedActiveQuizzes := true
      networkSubmitted := false }
  else
    match selectedOption with
    | none =>
      { outcome := .noSelection
        feedback := some { type := .ERROR
                           message := "Please choose an option before submitting." }
        refetchedActiveQuizzes := false
        networkSubmitted := false }
    | some _ =>
      { outcome := .submitted, feedback := none
        refetchedActiveQuizzes := submitSucceeds, networkSubmitted := true }

/-- WebSocket readyState values. -/
inductive WsReadyState
  | CONNECTING
  | OPEN
  | CLOSING
  | CLOSED
deriving DecidableEq, Repr

/-- The displayed socket state machine of both channel variants. -/
inductive SocketUiState
  | DISCONNECTED
  | CONNECTING
  | CONNECTED
  | ERROR
deriving DecidableEq, Repr

/-- Telemetry UI states of the student page. -/
inductive TelemetryUiState
  | IDLE
  | ACTIVE
  | ERROR
deriving DecidableEq, Repr

/-- Embeds String.prototype.includes for a non-empty search string:
substring containment on the character list. -/
def jsIncludes (s pat : String) : Bool := decide (pat.toList <:+: s.toList)

/-- The guard existing && (existing.readyState === WebSocket.OPEN ||
existing.readyState === WebSocket.CONNECTING) over the held handle. -/
def wsActiveHandle : Option WsReadyState → Bool
  | some .OPEN => true
  | some .CONNECTING => true
  | _ => false

/-- Whether connect created (or attempted to create) a WebSocket object. -/
inductive ConnectAction
  | noAction
  | createSocket
deriving DecidableEq, Repr

/-- The component state read and written by the student
connectEngagementSocket: session status (none when no session is loaded),
the joined flag, the held socket handle with its readyState, and the
displayed socket/telemetry state. -/
structure StudentConnState where
  sessionStatus : Option String
  joined : Bool
  wsRef : Option WsReadyState
  socketState : SocketUiState
  telemetryState : TelemetryUiState
  telemetryMessage : String
deriving DecidableEq, Repr

/-- Embeds connectEngagementSocket of the student session page: return at
once unless the session is LIVE and joined; no-op when the held handle is
already OPEN or CONNECTING; refuse with a configuration error when the
URL embeds no token; otherwise go CONNECTING and construct the WebSocket
(ctorThrows models the constructor raising, caught by the try block). -/
def connectEngagementSocketStudent (wsUrl : String) (ctorThrows : Bool)
    (s : StudentConnState) : StudentConnState × ConnectAction :=
  if ¬(s.sessionStatus = some "LIVE" ∧ s.joined = true) then (s, .noAction)
  else if wsActiveHandle s.wsRef then (s, .noAction)
  else if ¬(jsIncludes wsUrl "token=" = true) then
    ({ s with
       socketState := .ERROR
       telemetryState := .ERROR
       telemetryMessage := "Missing auth token for engagement socket" },
     .noAction)
  else if ctorThrows then
    ({ s with
       socketState := .ERROR
       telemetryState := .ERROR
       telemetryMessage := "Unable to open engagement socket" },
     .createSocket)
  else
    ({ s with socketState := .CONNECTING, wsRef := some .CONNECTING },
     .createSocket)

/-- The component state read and written by the instructor
connectEngagementSocket: session status, the held socket handle, and the
displayed socket state and insights error message. -/
structure TeacherConnState where
  sessionStatus : Option String
  wsRef : Option WsReadyState
  engagementSocketState : SocketUiState
  insightsError : String
deriving DecidableEq, Repr

/-- Embeds connectEngagementSocket of the instructor session page: same
shape as the student variant but guarded only on a LIVE session and
reporting through engagementSocketState / insightsError. -/
def connectEngagementSocketTeacher (wsUrl : String) (ctorThrows : Bool)
    (s : TeacherConnState) : TeacherConnState × ConnectAction :=
  if ¬(s.sessionStatus = some "LIVE") then (s, .noAction)
  else if wsActiveHandle s.wsRef then (s, .noAction)
  else if ¬(jsIncludes wsUrl "token=" = true) then
    ({ s with
       engagementSocketState := .ERROR
       insightsError := "Missing auth token for live engagement socket" },
     .noAction)
  else if ctorThrows then
    ({ s with
       engagementSocketState := .ERROR
       insightsError := "Unable to open live engagement socket" },
     .createSocket)
  else
    ({ s with engagementSocketState := .CONNECTING, wsRef := some .CONNECTING },
     .createSocket)

/-- The asynchronous outcomes one compose cycle of sendTelemetrySignal can
observe after the session/join guard passed: whether the engagement
socket handle is present and OPEN, whether the first frame capture and the
post-reacquire retry capture yield a frame, whether encoding the frame to
a data URL succeeds, and whether socket.send raises. -/
structure ComposeCycleEnv where
  socketOpen : Bool
  captureFirstOk : Bool
  captureRetryOk : Bool
  encodeOk : Bool
  sendThrows : Bool
deriving DecidableEq, Repr

/-- Outcome of one compose cycle: the interaction-burst counter after the
cycle, the displayed telemetry state, and whether the vision_sample
message was transmitted. -/
structure ComposeCycleResult where
  interactionCount : ℕ
  telemetryState : TelemetryUiState
  transmitted : Bool
deriving DecidableEq, Repr

/-- Embeds the branch structure of one compose cycle of
sendTelemetrySignal: every failure branch (socket not open, two
consecutive capture failures, encoding failure, send raising into the
catch block) returns with the interaction counter untouched; only after a
successful send is interactionCountRef reset to 0. -/
def composeCycle (env : ComposeCycleEnv) (interactionCount : ℕ) : ComposeCycleResult :=
  if env.socketOpen = false then
    { interactionCount := interactionCount, telemetryState := .ERROR, transmitted := false }
  else if env.captureFirstOk = false ∧ env.captureRetryOk = false then
    { interactionCount := interactionCount, telemetryState := .ERROR, transmitted := false }
  else if env.encodeOk = false then
    { interactionCount := interactionCount, telemetryState := .ERROR, transmitted := false }
  else if env.sendThrows = true then
    { interactionCount := interactionCount, telemetryState := .ERROR, transmitted := false }
  else
    { interactionCount := 0, telemetryState := .ACTIVE, transmitted := true }

/-- The compose-cycle transmission condition in terms of its inputs. -/
def composeCycleTransmits (env : ComposeCycleEnv) : Bool :=
  env.socketOpen && (env.captureFirstOk || env.captureRetryOk)
    && env.encodeOk && !env.sendThrows

/-- Topic difficulty values of the insights subscription. -/
inductive TopicDifficulty
  | LOW
  | MEDIUM
  | HIGH
deriving DecidableEq, Repr

/-- The dependency array of the instructor resubscribe effect:
[topicDifficulty, session], with the session object identity modelled as
a key. -/
@[ext]
structure InsightsDeps where
  topicDifficulty : TopicDifficulty
  sessionKey : ℕ
deriving DecidableEq, Repr

/-- One committed render of the instructor page: the effect dependency
values plus the guards the effect body reads (socket handle present and
OPEN, session LIVE). -/
structure InsightsRender where
  deps : InsightsDeps
  socketOpen : Bool
  sessionLive : Bool
deriving DecidableEq, Repr

/-- React effect semantics: the effect body re-runs on a committed render
iff the dependency array differs from the previous render (none models
the mount render). -/
def effectRuns (prev : Option InsightsDeps) (cur : InsightsDeps) : Bool :=
  decide (prev ≠ some cur)

/-- subscribe_insights messages sent by the resubscribe effect on one
render: one when the effect re-runs and its guard (socket OPEN, session
LIVE) passes, zero otherwise. -/
def resubscribeSends (prev : Option InsightsDeps) (r : InsightsRender) : ℕ :=
  if effectRuns prev r.deps = true ∧ r.socketOpen = true ∧ r.sessionLive = true
  then 1 else 0

/-- Total subscribe_insights messages the resubscribe effect sends across
a sequence of committed renders, threading the previous dependency
array. -/
def sendsInTrace : Option InsightsDeps → List InsightsRender → ℕ
  | _, [] => 0
  | prev, r :: rs => resubscribeSends prev r + sendsInTrace (some r.deps) rs

/-- Number of topic-difficulty changes across a render sequence, relative
to the difficulty of the previous render. -/
def countDifficultyChanges : TopicDifficulty → List InsightsRender → ℕ
  | _, [] => 0
  | p, r :: rs =>
    (if r.deps.topicDifficulty ≠ p then 1 else 0)
      + countDifficultyChanges r.deps.topicDifficulty rs

theorem clamp01_nonneg (v : ℚ) : 0 ≤ clamp01 v := le_max_left 0 (min 1 v)

theorem clamp01_le_one (v : ℚ) : clamp01 v ≤ 1 :=
  max_le zero_le_one (min_le_left 1 v)

theorem round_ge_of_cast_le {y : ℚ} {c : ℤ} (h : (c : ℚ) ≤ y) : c ≤ round y := by
  rw [round_eq]
  refine Int.le_floor.mpr ?_
  linarith

theorem round_le_of_le_cast {y : ℚ} {c : ℤ} (h : y ≤ (c : ℚ)) : round y ≤ c := by
  rw [round_eq]
  have h2 : y + 1 / 2 < ((c + 1 : ℤ) : ℚ) := by push_cast; linarith
  have h3 := Int.floor_lt.mpr h2
  omega

theorem jsToFixed3_nonneg {x : ℚ} (h : 0 ≤ x) : 0 ≤ jsToFixed3 x := by
  have h1 : (0 : ℤ) ≤ round (x * 1000) :=
    round_ge_of_cast_le (by push_cast; linarith)
  unfold jsToFixed3
  have h2 : (0 : ℚ) ≤ ((round (x * 1000) : ℤ) : ℚ) := by exact_mod_cast h1
  linarith

theorem jsToFixed3_le_one {x : ℚ} (h : x ≤ 1) : jsToFixed3 x ≤ 1 := by
  have h1 : round (x * 1000) ≤ (1000 : ℤ) :=
    round_le_of_le_cast (by push_cast; linarith)
  unfold jsToFixed3
  have h2 : ((round (x * 1000) : ℤ) : ℚ) ≤ 1000 := by exact_mod_cast h1
  linarith

theorem jsToFixed3_clamp01_mem (v : ℚ) :
    0 ≤ jsToFixed3 (clamp01 v) ∧ jsToFixed3 (clamp01 v) ≤ 1 :=
  ⟨jsToFixed3_nonneg (clamp01_nonneg v), jsToFixed3_le_one (clamp01_le_one v)⟩

/-- C1: every TelemetrySignal composed by sendTelemetrySignal carries
participation, attendance_consistency, and movement_intensity values in
the closed interval [0,1], for all possible activity-monitor inputs. -/
theorem telemetry_blend_fields_in_unit_interval (i : TelemetryInputs) :
    (0 ≤ (composeTelemetry i).participation ∧ (composeTelemetry i).participation ≤ 1)
    ∧ (0 ≤ (composeTelemetry i).attendance_consistency ∧ (composeTelemetry i).attendance_consistency ≤ 1)
    ∧ (0 ≤ (composeTelemetry i).movement_intensity ∧ (composeTelemetry i).movement_intensity ≤ 1) := by
  simp only [composeTelemetry]
  exact ⟨jsToFixed3_clamp01_mem _, jsToFixed3_clamp01_mem _, jsToFixed3_clamp01_mem _⟩

theorem jsToFixed3_attendance_lb {v : ℚ} (hv0 : 0 ≤ v) (hv1 : v ≤ 1) :
    (0.55 : ℚ) ≤ jsToFixed3 (clamp01 (0.55 + v * 0.45)) := by
  have hmul0 : (0 : ℚ) ≤ v * 0.45 := by nlinarith
  have hmul1 : v * 0.45 ≤ 0.45 := by nlinarith
  have heq : clamp01 (0.55 + v * 0.45) = 0.55 + v * 0.45 := by
    unfold clamp01 clamp
    rw [min_eq_right (by linarith), max_eq_right (by linarith)]
  rw [heq]
  have h1 : (550 : ℤ) ≤ round ((0.55 + v * 0.45) * 1000) :=
    round_ge_of_cast_le (by push_cast; linarith)
  unfold jsToFixed3
  have h2 : (550 : ℚ) ≤ ((round ((0.55 + v * 0.45) * 1000) : ℤ) : ℚ) := by
    exact_mod_cast h1
  linarith

/-- C10: the transmitted attendance_consistency of every composed
TelemetrySignal is at least 0.55: the blend is 0.55 + 0.45 times the
visible share, so a participant hidden for the whole elapsed interval is
still reported with attendance consistency 0.55. -/
theorem telemetry_attendance_floor (i : TelemetryInputs) :
    (0.55 : ℚ) ≤ (composeTelemetry i).attendance_consistency := by
  simp only [composeTelemetry]
  exact jsToFixed3_attendance_lb (clamp01_nonneg _) (clamp01_le_one _)

/-- C2: camera recovery is single-flight. From a state with no pending
backoff timer, a second ended event arriving while the recovery timer is
still pending is a no-op, and the trace ended, ended, timer-fire schedules
exactly one recovery timer and executes exactly one release-and-reacquire
attempt. -/
theorem camera_recovery_single_flight (s : CameraRecoveryState)
    (h : s.recoveryTimerPending = false) :
    onTrackEnded (onTrackEnded s) = onTrackEnded s
    ∧ (runCameraEvents s
        [.trackEnded, .trackEnded, .recoveryTimerFire]).scheduledRecoveries
      = s.scheduledRecoveries + 1
    ∧ (runCameraEvents s
        [.trackEnded, .trackEnded, .recoveryTimerFire]).executedRecoveries
      = s.executedRecoveries + 1 := by
  simp [runCameraEvents, onTrackEnded, onRecoveryTimerFire, h]

/-- Concrete instantiation of camera_recovery_single_flight at an ACTIVE
camera with no pending timer. -/
theorem camera_recovery_single_flight_witness :
    onTrackEnded (onTrackEnded ⟨false, .ACTIVE, "Live camera attention sampling enabled", 0, 0⟩)
      = onTrackEnded ⟨false, .ACTIVE, "Live camera attention sampling enabled", 0, 0⟩
    ∧ (runCameraEvents ⟨false, .ACTIVE, "Live camera attention sampling enabled", 0, 0⟩
        [.trackEnded, .trackEnded, .recoveryTimerFire]).scheduledRecoveries
      = 0 + 1
    ∧ (runCameraEvents ⟨false, .ACTIVE, "Live camera attention sampling enabled", 0, 0⟩
        [.trackEnded, .trackEnded, .recoveryTimerFire]).executedRecoveries
      = 0 + 1 :=
  camera_recovery_single_flight
    ⟨false, .ACTIVE, "Live camera attention sampling enabled", 0, 0⟩ rfl

/-- C3: when the computed remaining time of a checkpoint is known and ≤ 0
at submission time, handleQuizAnswer rejects the answer locally with the
explicit time-over feedback, triggers a re-fetch of the active checkpoint
set, and issues no network submission request. -/
theorem quiz_answer_time_over_rejected (parse : String → Option ℤ)
    (hasSession : Bool) (quiz : SessionQuizItem) (quizClock : ℤ)
    (selectedOption : Option ℕ) (submitSucceeds : Bool) (r : ℤ)
    (hSession : hasSession = true)
    (hRemaining : quizRemainingSeconds parse quiz quizClock = some r)
    (hExpired : r ≤ 0) :
    handleQuizAnswer parse hasSession quiz quizClock selectedOption submitSucceeds
      = { outcome := .timeOver
          feedback := some { type := .ERROR
                             message := "Quiz time is over. Wait for the next checkpoint." }
          refetchedActiveQuizzes := true
          networkSubmitted := false } := by
  simp [handleQuizAnswer, hSession, hRemaining, hExpired]

/-- Concrete instantiation of quiz_answer_time_over_rejected for a
checkpoint whose server snapshot reports zero remaining seconds. -/
theorem quiz_answer_time_over_rejected_witness :
    handleQuizAnswer (fun _ => none) true
      ⟨3, "What is the time complexity of binary search?",
        ["O(n)", "O(log n)", "O(1)", "O(n log n)"], some 60, none, some 0,
        true, 0, 0⟩
      1000 (some 1) true
      = { outcome := .timeOver
          feedback := some { type := .ERROR
                             message := "Quiz time is over. Wait for the next checkpoint." }
          refetchedActiveQuizzes := true
          networkSubmitted := false } :=
  quiz_answer_time_over_rejected (fun _ => none) true
    ⟨3, "What is the time complexity of binary search?",
      ["O(n)", "O(log n)", "O(1)", "O(n log n)"], some 60, none, some 0,
      true, 0, 0⟩
    1000 (some 1) true 0 rfl rfl (by decide)

/-- C4: provided the JS Date parse sends the empty string to NaN (which it
does), quizRemainingSeconds agrees everywhere with the spec-style query
that derives the value from the expiry timestamp whenever it is present
and parses to a valid time, falls back to the remaining-seconds snapshot
only when no usable expiry exists, and returns null when neither basis is
available. -/
theorem quiz_remaining_prefers_expiry (parse : String → Option ℤ)
    (quiz : SessionQuizItem) (nowMs : ℤ) (hEmptyNaN : parse "" = none) :
    quizRemainingSeconds parse quiz nowMs = quizRemainingSecondsSpec parse quiz nowMs := by
  unfold quizRemainingSeconds quizRemainingSecondsSpec
  match hq : quiz.expires_at with
  | none => rfl
  | some s =>
    by_cases hs : s = ""
    · subst hs
      simp [hEmptyNaN]
    · simp [hs]

/-- Concrete instantiation of quiz_remaining_prefers_expiry at a
checkpoint carrying both an expiry timestamp and a snapshot, under a
parse function that resolves the timestamp and rejects the empty
string. -/
theorem quiz_remaining_prefers_expiry_witness :
    quizRemainingSeconds
      (fun s => if s = "2025-03-01T10:00:30Z" then some 90000 else none)
      ⟨5, "Which layer does TCP belong to?", ["Network", "Transport"],
        some 60, some "2025-03-01T10:00:30Z", some 7, true, 0, 0⟩
      30000
      = quizRemainingSecondsSpec
        (fun s => if s = "2025-03-01T10:00:30Z" then some 90000 else none)
        ⟨5, "Which layer does TCP belong to?", ["Network", "Transport"],
          some 60, some "2025-03-01T10:00:30Z", some 7, true, 0, 0⟩
        30000 :=
  quiz_remaining_prefers_expiry
    (fun s => if s = "2025-03-01T10:00:30Z" then some 90000 else none)
    ⟨5, "Which layer does TCP belong to?", ["Network", "Transport"],
      some 60, some "2025-03-01T10:00:30Z", some 7, true, 0, 0⟩
    30000 (by decide)

theorem optionLeZ_refl (o : Option ℤ) : optionLeZ o o := by
  cases o <;> simp [optionLeZ]

/-- C5: between consecutive quiz-clock ticks with unchanged authoritative
data the computed remaining time of a tracked checkpoint is non-increasing
(null stays null), and when fresh authoritative data arrives the computed
remaining time is exactly the value derived from the new data at the
current clock. -/
theorem quiz_remaining_monotone_between_ticks (parse : String → Option ℤ)
    (s : QuizTrackState) (nowMs : ℤ) (newQuiz : SessionQuizItem)
    (hClock : s.clockMs ≤ nowMs) :
    optionLeZ (displayedRemaining parse (quizSyncStep s (.clockTick nowMs)))
      (displayedRemaining parse s)
    ∧ displayedRemaining parse (quizSyncStep s (.dataRefresh newQuiz))
      = quizRemainingSeconds parse newQuiz s.clockMs := by
  constructor
  · have hfdiv : ∀ t : ℤ, (t - nowMs).fdiv 1000 ≤ (t - s.clockMs).fdiv 1000 := by
      intro t
      rw [Int.fdiv_eq_ediv _ (by norm_num), Int.fdiv_eq_ediv _ (by norm_num)]
      exact Int.ediv_le_ediv (by norm_num) (by omega)
    unfold displayedRemaining quizSyncStep quizRemainingSeconds
    match hq : s.quiz.expires_at with
    | none => exact optionLeZ_refl _
    | some str =>
      by_cases hs : str = ""
      · simp only [hs, if_pos rfl]
        exact optionLeZ_refl _
      · simp only [if_neg hs]
        match hp : parse str with
        | none => exact optionLeZ_refl _
        | some t =>
          simpa [optionLeZ] using max_le_max (hfdiv t) (le_refl 0)
  · rfl

/-- Concrete instantiation of quiz_remaining_monotone_between_ticks: a
checkpoint expiring at 60s, observed at clock 1000ms and ticked to
2000ms, then refreshed with new authoritative data. -/
theorem quiz_remaining_monotone_between_ticks_witness :
    optionLeZ
      (displayedRemaining (fun s => if s = "exp" then some 60000 else none)
        (quizSyncStep
          ⟨⟨4, "Which sorting algorithm is stable?", ["Quicksort", "Mergesort"],
            some 60, some "exp", some 45, true, 0, 0⟩, 1000⟩
          (.clockTick 2000)))
      (displayedRemaining (fun s => if s = "exp" then some 60000 else none)
        ⟨⟨4, "Which sorting algorithm is stable?", ["Quicksort", "Mergesort"],
          some 60, some "exp", some 45, true, 0, 0⟩, 1000⟩)
    ∧ displayedRemaining (fun s => if s = "exp" then some 60000 else none)
        (quizSyncStep
          ⟨⟨4, "Which sorting algorithm is stable?", ["Quicksort", "Mergesort"],
            some 60, some "exp", some 45, true, 0, 0⟩, 1000⟩
          (.dataRefresh
            ⟨4, "Which sorting algorithm is stable?", ["Quicksort", "Mergesort"],
              some 60, some "exp2", some 30, true, 1, 1⟩))
      = quizRemainingSeconds (fun s => if s = "exp" then some 60000 else none)
          ⟨4, "Which sorting algorithm is stable?", ["Quicksort", "Mergesort"],
            some 60, some "exp2", some 30, true, 1, 1⟩
          1000 :=
  quiz_remaining_monotone_between_ticks
    (fun s => if s = "exp" then some 60000 else none)
    ⟨⟨4, "Which sorting algorithm is stable?", ["Quicksort", "Mergesort"],
      some 60, some "exp", some 45, true, 0, 0⟩, 1000⟩
    2000
    ⟨4, "Which sorting algorithm is stable?", ["Quicksort", "Mergesort"],
      some 60, some "exp2", some 30, true, 1, 1⟩
    (by decide)

/-- C6: for both engagement socket variants, when connect runs for a LIVE
(and, for the student variant, joined) session with no already active
handle and the connection URL embeds no token, the socket state becomes
ERROR with the configuration-error message and no WebSocket object is
constructed. -/
theorem socket_refuses_without_token (wsUrl : String) (b1 b2 : Bool)
    (ss : StudentConnState) (ts : TeacherConnState)
    (hTok : jsIncludes wsUrl "token=" = false)
    (hsLive : ss.sessionStatus = some "LIVE") (hsJoined : ss.joined = true)
    (hsIdle : wsActiveHandle ss.wsRef = false)
    (htLive : ts.sessionStatus = some "LIVE")
    (htIdle : wsActiveHandle ts.wsRef = false) :
    connectEngagementSocketStudent wsUrl b1 ss
      = ({ ss with
           socketState := .ERROR
           telemetryState := .ERROR
           telemetryMessage := "Missing auth token for engagement socket" },
         .noAction)
    ∧ connectEngagementSocketTeacher wsUrl b2 ts
      = ({ ts with
           engagementSocketState := .ERROR
           insightsError := "Missing auth token for live engagement socket" },
         .noAction) := by
  constructor
  · simp [connectEngagementSocketStudent, hsLive, hsJoined, hsIdle, hTok]
  · simp [connectEngagementSocketTeacher, htLive, htIdle, hTok]

/-- Concrete instantiation of socket_refuses_without_token at a token-less
engagement URL. -/
theorem socket_refuses_without_token_witness :
    connectEngagementSocketStudent "ws://localhost:8000/ws/sessions/7/engagement" false
      ⟨some "LIVE", true, none, .DISCONNECTED, .IDLE, ""⟩
      = (⟨some "LIVE", true, none, .ERROR, .ERROR,
          "Missing auth token for engagement socket"⟩, .noAction)
    ∧ connectEngagementSocketTeacher "ws://localhost:8000/ws/sessions/7/engagement" false
      ⟨some "LIVE", none, .DISCONNECTED, ""⟩
      = (⟨some "LIVE", none, .ERROR,
          "Missing auth token for live engagement socket"⟩, .noAction) :=
  socket_refuses_without_token "ws://localhost:8000/ws/sessions/7/engagement"
    false false
    ⟨some "LIVE", true, none, .DISCONNECTED, .IDLE, ""⟩
    ⟨some "LIVE", none, .DISCONNECTED, ""⟩
    (by decide) rfl rfl rfl rfl rfl

/-- C7: for both engagement socket variants, connect is a no-op whenever
the held handle is already OPEN or CONNECTING: the state is returned
unchanged and no WebSocket object is constructed. -/
theorem socket_connect_noop_when_active (wsUrl : String) (b1 b2 : Bool)
    (ss : StudentConnState) (ts : TeacherConnState)
    (hs : wsActiveHandle ss.wsRef = true)
    (ht : wsActiveHandle ts.wsRef = true) :
    connectEngagementSocketStudent wsUrl b1 ss = (ss, .noAction)
    ∧ connectEngagementSocketTeacher wsUrl b2 ts = (ts, .noAction) := by
  constructor
  · unfold connectEngagementSocketStudent
    split
    · rfl
    · simp [hs]
  · unfold connectEngagementSocketTeacher
    split
    · rfl
    · simp [ht]

/-- Concrete instantiation of socket_connect_noop_when_active: an OPEN
student handle and a CONNECTING instructor handle. -/
theorem socket_connect_noop_when_active_witness :
    connectEngagementSocketStudent "ws://localhost:8000/ws/sessions/7/engagement?token=abc" false
      ⟨some "LIVE", true, some .OPEN, .CONNECTED, .ACTIVE, ""⟩
      = (⟨some "LIVE", true, some .OPEN, .CONNECTED, .ACTIVE, ""⟩, .noAction)
    ∧ connectEngagementSocketTeacher "ws://localhost:8000/ws/sessions/7/engagement?token=abc" false
      ⟨some "LIVE", some .CONNECTING, .CONNECTING, ""⟩
      = (⟨some "LIVE", some .CONNECTING, .CONNECTING, ""⟩, .noAction) :=
  socket_connect_noop_when_active
    "ws://localhost:8000/ws/sessions/7/engagement?token=abc" false false
    ⟨some "LIVE", true, some .OPEN, .CONNECTED, .ACTIVE, ""⟩
    ⟨some "LIVE", some .CONNECTING, .CONNECTING, ""⟩
    rfl rfl

/-- C8: in every compose cycle the interaction-burst counter is reset to
zero exactly when the cycle transmits the vision_sample message, and the
cycle transmits exactly when the socket is open, some capture attempt
yields a frame, encoding succeeds, and send does not raise; every failed
cycle leaves the counter unchanged. -/
theorem compose_cycle_resets_counter_iff_transmitted (env : ComposeCycleEnv)
    (interactionCount : ℕ) :
    (composeCycle env interactionCount).interactionCount
      = (if (composeCycle env interactionCount).transmitted then 0 else interactionCount)
    ∧ (composeCycle env interactionCount).transmitted = composeCycleTransmits env := by
  rcases env with ⟨so, cf, cr, eo, st⟩
  cases so <;> cases cf <;> cases cr <;> cases eo <;> cases st <;>
    simp [composeCycle, composeCycleTransmits]

/-- C9: across committed renders of the instructor page in which the
session object is stable, the socket handle is OPEN and the session is
LIVE, the resubscribe effect sends exactly as many subscribe_insights
messages as there are topic-difficulty changes: one per change, none for a
render without a dependency change. -/
theorem resubscribe_one_message_per_change (prev : InsightsDeps)
    (trace : List InsightsRender)
    (hConn : ∀ r ∈ trace, r.socketOpen = true)
    (hLive : ∀ r ∈ trace, r.sessionLive = true)
    (hSess : ∀ r ∈ trace, r.deps.sessionKey = prev.sessionKey) :
    sendsInTrace (some prev) trace
      = countDifficultyChanges prev.topicDifficulty trace := by
  induction trace generalizing prev with
  | nil => rfl
  | cons r rs ih =>
    have hr1 : r.socketOpen = true := hConn r (List.mem_cons_self r rs)
    have hr2 : r.sessionLive = true := hLive r (List.mem_cons_self r rs)
    have hr3 : r.deps.sessionKey = prev.sessionKey := hSess r (List.mem_cons_self r rs)
    have htail : sendsInTrace (some r.deps) rs
        = countDifficultyChanges r.deps.topicDifficulty rs :=
      ih r.deps (fun x hx => hConn x (List.mem_cons_of_mem r hx))
        (fun x hx => hLive x (List.mem_cons_of_mem r hx))
        (fun x hx => (hSess x (List.mem_cons_of_mem r hx)).trans hr3.symm)
    have hdeps : prev = r.deps ↔ prev.topicDifficulty = r.deps.topicDifficulty := by
      constructor
      · intro h
        rw [h]
      · intro h
        ext
        · exact h
        · exact hr3.symm
    simp only [sendsInTrace, countDifficultyChanges, htail]
    congr 1
    by_cases hd : prev.topicDifficulty = r.deps.topicDifficulty
    · have heq : prev = r.deps := hdeps.mpr hd
      simp [resubscribeSends, effectRuns, heq, hd.symm]
    · have hne : prev ≠ r.deps := fun h => hd (hdeps.mp h)
      simp [resubscribeSends, effectRuns, hr1, hr2, hne, Ne.symm hd]

/-- Concrete instantiation of resubscribe_one_message_per_change: three
renders while CONNECTED and LIVE with one difficulty change produce one
message, not three and not zero. -/
theorem resubscribe_one_message_per_change_witness :
    sendsInTrace (some ⟨.MEDIUM, 7⟩)
      [⟨⟨.MEDIUM, 7⟩, true, true⟩, ⟨⟨.HIGH, 7⟩, true, true⟩,
        ⟨⟨.HIGH, 7⟩, true, true⟩]
      = countDifficultyChanges .MEDIUM
        [⟨⟨.MEDIUM, 7⟩, true, true⟩, ⟨⟨.HIGH, 7⟩, true, true⟩,
          ⟨⟨.HIGH, 7⟩, true, true⟩]
    ∧ countDifficultyChanges TopicDifficulty.MEDIUM
        [⟨⟨.MEDIUM, 7⟩, true, true⟩, ⟨⟨.HIGH, 7⟩, true, true⟩,
          ⟨⟨.HIGH, 7⟩, true, true⟩] = 1 :=
  ⟨resubscribe_one_message_per_change ⟨.MEDIUM, 7⟩
    [⟨⟨.MEDIUM, 7⟩, true, true⟩, ⟨⟨.HIGH, 7⟩, true, true⟩,
      ⟨⟨.HIGH, 7⟩, true, true⟩]
    (by decide) (by decide) (by decide), by decide⟩
